import Mathlib

/-
Shallow embedding of the FreshMart backend cart-and-order core
(src/server.js, Express route handlers for /api/cart and /api/orders).

Modelling conventions:
- The persisted JSON files carts.json / orders.json are modelled as
  `List Cart` / `List Order`; each handler is a pure function from the
  persisted state and the request to a response together with the new
  persisted state.  An error response leaves the state argument as the
  returned state, mirroring the handlers returning before any writeData.
- JS number fields: prices are `Rat` (exact), quantities `Int`,
  user ids and timestamps `Nat`.  ISO timestamp strings are modelled as
  the `Nat` instant they were produced from (`new Date().toISOString()`
  becomes the `now` parameter).
- Optional / possibly-absent request body fields are `Option`.
  JS truthiness on them: `none` and `some ""` are falsy for strings,
  `none` and `some 0` are falsy for numbers.
- The random order id (`FM...`) is passed in as an `oid` parameter.
- `writeData` is modelled as succeeding, except for the one write whose
  result the source discards: the cart-clear write inside order creation
  (line 549), modelled by the `cartWriteOk` flag.
-/

namespace FMart

/-- One line of a cart: the fields stored by the POST /api/cart handler. -/
structure CartItem where
  productId : String
  name : String
  price : Rat
  image : Option String
  quantity : Int
  addedAt : Nat
  updatedAt : Option Nat
deriving Repr, DecidableEq

/-- One record of carts.json: a per-user cart. -/
structure Cart where
  userId : Nat
  items : List CartItem
  clearedAt : Option Nat
deriving Repr, DecidableEq

/-- A line of an order as snapshotted by the POST /api/orders handler. -/
structure OrderItem where
  productId : String
  name : String
  price : Rat
  quantity : Int
  image : Option String
deriving Repr, DecidableEq

/-- One record of orders.json. Fields the handlers never set are `none`. -/
structure Order where
  id : String
  userId : Nat
  items : List OrderItem
  totalAmount : Rat
  deliveryAddress : String
  paymentMethod : String
  notes : String
  status : String
  orderDate : Nat
  estimatedDelivery : Nat
  createdAt : Nat
  cancelledAt : Option Nat
  cancellationReason : Option String
  updatedAt : Option Nat
deriving Repr, DecidableEq

/-- The error responses the handlers produce, by kind; each carries the
message (for the conflict case, the offending status string). -/
inductive ApiError where
  | validation : String → ApiError
  | notFound : String → ApiError
  | conflict : String → ApiError
deriving Repr, DecidableEq

/-- HTTP status code each error response is sent with
(res.status(400) / res.status(404)). -/
def httpStatus : ApiError → Nat
  | .validation _ => 400
  | .notFound _ => 404
  | .conflict _ => 400

/-- JS truthiness of a possibly-absent string field: undefined and "" are falsy. -/
def truthyStr : Option String → Bool
  | none => false
  | some s => s != ""

/-- JS truthiness of a possibly-absent numeric field: undefined and 0 are falsy. -/
def truthyRat : Option Rat → Bool
  | none => false
  | some q => q != 0

/-- totalItems: items.reduce((sum, item) => sum + item.quantity, 0). -/
def totalItems (items : List CartItem) : Int :=
  (items.map (fun it => it.quantity)).sum

/-- totalPrice: items.reduce((sum, item) => sum + item.price * item.quantity, 0). -/
def totalPrice (items : List CartItem) : Rat :=
  (items.map (fun it => it.price * (it.quantity : Rat))).sum

/-- The cart-shaped success response body: items plus derived totals. -/
structure CartView where
  items : List CartItem
  totalItems : Int
  totalPrice : Rat
deriving Repr, DecidableEq

/-- Build the response body from a list of items. -/
def viewOf (items : List CartItem) : CartView :=
  ⟨items, totalItems items, totalPrice items⟩

/-- carts.find(c => c.userId === req.user.id). -/
def findCart (carts : List Cart) (uid : Nat) : Option Cart :=
  carts.find? (fun c => c.userId == uid)

/-- In-place mutation of the cart object found by `find`: the first cart
with this userId is replaced, every other record is untouched. -/
def replaceCart : List Cart → Nat → Cart → List Cart
  | [], _, _ => []
  | c :: rest, uid, c2 =>
    if c.userId == uid then c2 :: rest else c :: replaceCart rest uid c2

/-- GET /api/cart (lines 234-252): read-only; a missing cart record is
substituted by an empty literal, and nothing is written back. -/
def getCart (carts : List Cart) (uid : Nat) : CartView × List Cart :=
  (viewOf ((findCart carts uid).getD ⟨uid, [], none⟩).items, carts)

/-- Request body of POST /api/cart. -/
structure AddItemReq where
  productId : Option String
  name : Option String
  price : Option Rat
  image : Option String
  quantity : Option Int
deriving Repr, DecidableEq

/-- items.findIndex(item => item.productId == productId) followed by either
a quantity increment at that index or items.push(newItem). -/
def addToItems (items : List CartItem) (pid : String) (qty : Int)
    (newItem : CartItem) : List CartItem :=
  match items with
  | [] => [newItem]
  | it :: rest =>
    if it.productId == pid then
      { it with quantity := it.quantity + qty } :: rest
    else
      it :: addToItems rest pid qty newItem

/-- POST /api/cart (lines 255-320). -/
def addItem (carts : List Cart) (uid : Nat) (req : AddItemReq) (now : Nat) :
    Except ApiError CartView × List Cart :=
  if !truthyStr req.productId || !truthyStr req.name || !truthyRat req.price then
    (.error (.validation "Product ID, name, and price are required"), carts)
  else
    let qty := req.quantity.getD 1
    if qty < 1 then
      (.error (.validation "Quantity must be at least 1"), carts)
    else
      let pid := req.productId.getD ""
      let cart := (findCart carts uid).getD ⟨uid, [], none⟩
      let newItem : CartItem :=
        ⟨pid, req.name.getD "", req.price.getD 0, req.image, qty, now, none⟩
      let items2 := addToItems cart.items pid qty newItem
      let cart2 := { cart with items := items2 }
      let carts2 :=
        if (findCart carts uid).isSome then replaceCart carts uid cart2
        else carts ++ [cart2]
      (.ok (viewOf items2), carts2)

/-- items.findIndex(item => item.productId == productId), then either
items.splice(itemIndex, 1) when the quantity is 0 or an update of
quantity and updatedAt at that index; `none` when the item is absent. -/
def setQtyItems (items : List CartItem) (pid : String) (q : Int) (now : Nat) :
    Option (List CartItem) :=
  match items with
  | [] => none
  | it :: rest =>
    if it.productId == pid then
      some (if q == 0 then rest
            else { it with quantity := q, updatedAt := some now } :: rest)
    else
      (setQtyItems rest pid q now).map (fun r => it :: r)

/-- PUT /api/cart/:productId (lines 323-384).  The guard is the literal
JS test `!quantity || quantity < 0`: an absent quantity and quantity 0
are both falsy, so both are rejected up front. -/
def updateItemQuantity (carts : List Cart) (uid : Nat) (pid : String)
    (quantity : Option Int) (now : Nat) :
    Except ApiError CartView × List Cart :=
  match quantity with
  | none => (.error (.validation "Valid quantity is required"), carts)
  | some q =>
    if q == 0 || q < 0 then
      (.error (.validation "Valid quantity is required"), carts)
    else
      match findCart carts uid with
      | none => (.error (.notFound "Cart not found"), carts)
      | some cart =>
        match setQtyItems cart.items pid q now with
        | none => (.error (.notFound "Item not found in cart"), carts)
        | some items2 =>
          (.ok (viewOf items2), replaceCart carts uid { cart with items := items2 })

/-- DELETE /api/cart/:productId (lines 387-431). -/
def removeItem (carts : List Cart) (uid : Nat) (pid : String) :
    Except ApiError CartView × List Cart :=
  match findCart carts uid with
  | none => (.error (.notFound "Cart not found"), carts)
  | some cart =>
    let items2 := cart.items.filter (fun it => it.productId != pid)
    if items2.length == cart.items.length then
      (.error (.notFound "Item not found in cart"), carts)
    else
      (.ok (viewOf items2), replaceCart carts uid { cart with items := items2 })

/-- DELETE /api/cart (lines 434-467). -/
def clearCart (carts : List Cart) (uid : Nat) (now : Nat) :
    Except ApiError CartView × List Cart :=
  match findCart carts uid with
  | none => (.error (.notFound "Cart not found"), carts)
  | some cart =>
    (.ok ⟨[], 0, 0⟩, replaceCart carts uid { cart with items := [], clearedAt := some now })

/-- Request body of POST /api/orders. -/
structure CreateOrderReq where
  items : Option (List OrderItem)
  deliveryAddress : Option String
  paymentMethod : Option String
  notes : Option String
deriving Repr, DecidableEq

/-- parseFloat(totalAmount.toFixed(2)): rounding to 2 decimal places
(round half up on the exact value). -/
def round2 (q : Rat) : Rat :=
  ((⌊q * 100 + 1 / 2⌋ : Int) : Rat) / 100

/-- items.reduce((sum, item) => sum + item.price * item.quantity, 0). -/
def orderTotal (items : List OrderItem) : Rat :=
  (items.map (fun it => it.price * (it.quantity : Rat))).sum

/-- POST /api/orders (lines 495-564).  `oid` stands for the generated
FM-prefixed order id; `cartWriteOk` models the outcome of the cart-clear
writeData whose return value the handler ignores (line 549). -/
def createOrder (carts : List Cart) (orders : List Order) (uid : Nat)
    (req : CreateOrderReq) (now : Nat) (oid : String) (cartWriteOk : Bool) :
    Except ApiError Order × List Cart × List Order :=
  match req.items with
  | none => (.error (.validation "Order items are required"), carts, orders)
  | some items =>
    if items.length == 0 then
      (.error (.validation "Order items are required"), carts, orders)
    else if !truthyStr req.deliveryAddress || !truthyStr req.paymentMethod then
      (.error (.validation "Delivery address and payment method are required"),
        carts, orders)
    else
      let newOrder : Order :=
        { id := oid
          userId := uid
          items := items.map
            (fun it => ⟨it.productId, it.name, it.price, it.quantity, it.image⟩)
          totalAmount := round2 (orderTotal items)
          deliveryAddress := req.deliveryAddress.getD ""
          paymentMethod := req.paymentMethod.getD ""
          notes := req.notes.getD ""
          status := "confirmed"
          orderDate := now
          estimatedDelivery := now + 24 * 60 * 60 * 1000
          createdAt := now
          cancelledAt := none
          cancellationReason := none
          updatedAt := none }
      let orders2 := orders ++ [newOrder]
      let carts2 :=
        match findCart carts uid with
        | none => carts
        | some cart =>
          if cartWriteOk then
            replaceCart carts uid { cart with items := [], clearedAt := some now }
          else carts
      (.ok newOrder, carts2, orders2)

/-- order.status.toLowerCase(): character-wise lowercasing. -/
def lowerStr (s : String) : String :=
  ⟨s.data.map Char.toLower⟩

/-- reason || the default text, as stored in cancellationReason. -/
def cancelReason : Option String → String
  | none => "Cancelled by customer"
  | some r => if r == "" then "Cancelled by customer" else r

/-- The spread-update the cancel handler builds at lines 595-601. -/
def cancelledVersion (o : Order) (reason : Option String) (now : Nat) : Order :=
  { o with
      status := "cancelled"
      cancelledAt := some now
      cancellationReason := some (cancelReason reason)
      updatedAt := some now }

/-- orders.findIndex(order => order.id === orderId && order.userId === uid)
combined with the status guard and the in-place replacement at that index. -/
def cancelFirst (orders : List Order) (uid : Nat) (oid : String)
    (reason : Option String) (now : Nat) :
    Except ApiError Order × List Order :=
  match orders with
  | [] => (.error (.notFound "Order not found"), [])
  | o :: rest =>
    if o.id == oid && o.userId == uid then
      if lowerStr o.status == "delivered" || lowerStr o.status == "cancelled" then
        (.error (.conflict o.status), o :: rest)
      else
        let o2 := cancelledVersion o reason now
        (.ok o2, o2 :: rest)
    else
      let res := cancelFirst rest uid oid reason now
      (res.1, o :: res.2)

/-- PUT /api/orders/:orderId/cancel (lines 567-619). -/
def cancelOrder (orders : List Order) (uid : Nat) (oid : String)
    (reason : Option String) (now : Nat) :
    Except ApiError Order × List Order :=
  cancelFirst orders uid oid reason now

/-- orders.find(order => order.id === orderId && order.userId === uid),
shared shape of the lookup in the cancel and detail handlers. -/
def findOrder (orders : List Order) (uid : Nat) (oid : String) : Option Order :=
  orders.find? (fun o => o.id == oid && o.userId == uid)

/-! Concrete records used to exercise the handlers on fixed inputs. -/

/-- A cart of user 1 holding one line with productId P. -/
def cartC1 : Cart :=
  ⟨1, [⟨"P", "apple", 2, none, 3, 10, none⟩], none⟩

/-- A delivered order of user 1. -/
def ordC2a : Order :=
  ⟨"FMD", 1, [], 0, "addr", "card", "", "delivered", 0, 5, 0, none, none, none⟩

/-- A confirmed order of user 1. -/
def ordC2b : Order :=
  ⟨"FMC", 1, [], 0, "addr", "card", "", "confirmed", 0, 5, 0, none, none, none⟩

/-- An order creation request whose paymentMethod is outside the
enumerated set of the specification. -/
def reqBtc : CreateOrderReq :=
  ⟨some [⟨"a", "x", 1, 1, none⟩], some "addr", some "bitcoin", none⟩

/-- Add productId P with quantity 2. -/
def reqP2 : AddItemReq :=
  ⟨some "P", some "apple", some 2, none, some 2⟩

/-- Add productId P with quantity 3. -/
def reqP3 : AddItemReq :=
  ⟨some "P", some "apple", some 2, none, some 3⟩

/-- A cart of user 1 with one pending line, to be cleared by checkout. -/
def cartC5 : Cart :=
  ⟨1, [⟨"b", "y", 3, none, 2, 4, none⟩], none⟩

/-- A valid order creation request for user 1. -/
def reqC5 : CreateOrderReq :=
  ⟨some [⟨"a", "x", 2, 1, none⟩], some "addr", some "card", none⟩

/-- The order creation request of the worked example:
items [(price 2.50, qty 2), (price 1.00, qty 3)]. -/
def reqEx : CreateOrderReq :=
  ⟨some [⟨"a", "x", 5 / 2, 2, none⟩, ⟨"b", "y", 1, 3, none⟩], some "addr", some "card", none⟩

/-- An addItem request with unitPrice present but equal to 0. -/
def reqZeroPrice : AddItemReq :=
  ⟨some "p1", some "apple", some 0, none, some 1⟩

/-- An addItem request with a negative unitPrice. -/
def reqNegPrice : AddItemReq :=
  ⟨some "p1", some "apple", some (-3), none, some 1⟩

/-- The order that createOrder builds from cartC5, reqC5 at instant 7. -/
def ordC5 : Order :=
  { id := "FM1", userId := 1, items := [⟨"a", "x", 2, 1, none⟩],
    totalAmount := round2 (orderTotal [⟨"a", "x", 2, 1, none⟩]),
    deliveryAddress := "addr", paymentMethod := "card", notes := "",
    status := "confirmed", orderDate := 7,
    estimatedDelivery := 7 + 24 * 60 * 60 * 1000, createdAt := 7,
    cancelledAt := none, cancellationReason := none, updatedAt := none }

/-- The order that createOrder builds from reqEx at instant 0. -/
def ordEx : Order :=
  { id := "FMEX", userId := 7,
    items := [⟨"a", "x", 5 / 2, 2, none⟩, ⟨"b", "y", 1, 3, none⟩],
    totalAmount := round2 (orderTotal [⟨"a", "x", 5 / 2, 2, none⟩, ⟨"b", "y", 1, 3, none⟩]),
    deliveryAddress := "addr", paymentMethod := "card", notes := "",
    status := "confirmed", orderDate := 0,
    estimatedDelivery := 0 + 24 * 60 * 60 * 1000, createdAt := 0,
    cancelledAt := none, cancellationReason := none, updatedAt := none }

/-- The order that createOrder builds from reqBtc at instant 0. -/
def ordBtc : Order :=
  { id := "FM1", userId := 1, items := [⟨"a", "x", 1, 1, none⟩],
    totalAmount := round2 (orderTotal [⟨"a", "x", 1, 1, none⟩]),
    deliveryAddress := "addr", paymentMethod := "bitcoin", notes := "",
    status := "confirmed", orderDate := 0,
    estimatedDelivery := 0 + 24 * 60 * 60 * 1000, createdAt := 0,
    cancelledAt := none, cancellationReason := none, updatedAt := none }

/-- A processing order of user 3. -/
def ordC8w : Order :=
  ⟨"FM8", 3, [], 0, "addr", "cash", "", "processing", 0, 5, 0, none, none, none⟩

/-- A confirmed order of user 4 with no updatedAt field. -/
def ordC8x : Order :=
  ⟨"FM9", 4, [], 0, "addr", "card", "", "confirmed", 0, 5, 0, none, none, none⟩

/-- The productId column of a list of cart lines. -/
def pids (items : List CartItem) : List String :=
  items.map (fun it => it.productId)

/-- Invariant of one cart record: each productId occurs on at most one line. -/
def CartOk (c : Cart) : Prop :=
  (pids c.items).Nodup

/-- Invariant of the carts store: every cart record satisfies CartOk. -/
def StoreOk (carts : List Cart) : Prop :=
  ∀ c ∈ carts, CartOk c

@[simp]
theorem pids_nil : pids [] = [] := rfl

@[simp]
theorem pids_cons (it : CartItem) (l : List CartItem) :
    pids (it :: l) = it.productId :: pids l := rfl

theorem findCart_userId {carts : List Cart} {uid : Nat} {c : Cart}
    (h : findCart carts uid = some c) : c.userId = uid := by
  have hp := List.find?_some h
  simpa using hp

theorem mem_of_findCart {carts : List Cart} {uid : Nat} {c : Cart}
    (h : findCart carts uid = some c) : c ∈ carts :=
  List.mem_of_find?_eq_some h

theorem mem_replaceCart {carts : List Cart} {uid : Nat} {c2 c : Cart}
    (h : c ∈ replaceCart carts uid c2) : c ∈ carts ∨ c = c2 := by
  induction carts with
  | nil => simp [replaceCart] at h
  | cons a rest ih =>
    by_cases hb : a.userId = uid
    · simp [replaceCart, hb] at h
      rcases h with h | h
      · exact Or.inr h
      · exact Or.inl (List.mem_cons_of_mem _ h)
    · simp [replaceCart, hb] at h
      rcases h with h | h
      · exact Or.inl (by simp [h])
      · rcases ih h with h2 | h2
        · exact Or.inl (List.mem_cons_of_mem _ h2)
        · exact Or.inr h2

theorem storeOk_replaceCart {carts : List Cart} {uid : Nat} {c2 : Cart}
    (h : StoreOk carts) (h2 : CartOk c2) : StoreOk (replaceCart carts uid c2) := by
  intro c hc
  rcases mem_replaceCart hc with hmem | rfl
  · exact h c hmem
  · exact h2

theorem findCart_replaceCart {carts : List Cart} {uid : Nat} {c c2 : Cart}
    (h : findCart carts uid = some c) (h2 : c2.userId = uid) :
    findCart (replaceCart carts uid c2) uid = some c2 := by
  induction carts with
  | nil => simp [findCart] at h
  | cons a rest ih =>
    by_cases hb : a.userId = uid
    · simp [replaceCart, findCart, hb, h2]
    · have hb2 : ¬((a.userId == uid) = true) := by simp [hb]
      simp only [findCart, replaceCart, if_neg hb2] at h ⊢
      have step1 : List.find? (fun c => c.userId == uid) (a :: rest)
          = List.find? (fun c => c.userId == uid) rest :=
        List.find?_cons_of_neg rest hb2
      have step2 : List.find? (fun c => c.userId == uid) (a :: replaceCart rest uid c2)
          = List.find? (fun c => c.userId == uid) (replaceCart rest uid c2) :=
        List.find?_cons_of_neg _ hb2
      rw [step1] at h
      rw [step2]
      exact ih h

theorem mem_pids_addToItems {items : List CartItem} {pid : String} {qty : Int}
    {newItem : CartItem} {a : String} (hnew : newItem.productId = pid)
    (h : a ∈ pids (addToItems items pid qty newItem)) : a ∈ pids items ∨ a = pid := by
  induction items with
  | nil =>
    simp [addToItems, hnew] at h
    exact Or.inr h
  | cons it rest ih =>
    by_cases hb : it.productId = pid
    · simp [addToItems, hb] at h ⊢
      tauto
    · simp [addToItems, hb] at h ⊢
      rcases h with h | h
      · exact Or.inl (Or.inl h)
      · rcases ih h with h2 | h2
        · exact Or.inl (Or.inr h2)
        · exact Or.inr h2

theorem nodup_pids_addToItems {items : List CartItem} {pid : String} {qty : Int}
    {newItem : CartItem} (hnew : newItem.productId = pid)
    (h : (pids items).Nodup) : (pids (addToItems items pid qty newItem)).Nodup := by
  induction items with
  | nil => simp [addToItems]
  | cons it rest ih =>
    simp only [pids_cons, List.nodup_cons] at h
    by_cases hb : it.productId = pid
    · simp only [addToItems, hb, if_pos, beq_self_eq_true]
      simp only [if_true, pids_cons, List.nodup_cons]
      exact ⟨hb ▸ h.1, h.2⟩
    · simp only [addToItems, hb]
      rw [if_neg (by simp [hb])]
      simp only [pids_cons, List.nodup_cons]
      refine ⟨?_, ih h.2⟩
      intro hmem
      rcases mem_pids_addToItems hnew hmem with h2 | h2
      · exact h.1 h2
      · exact hb h2

theorem pids_setQtyItems {items : List CartItem} {pid : String} {q : Int} {now : Nat}
    {items2 : List CartItem} (h : setQtyItems items pid q now = some items2) :
    (pids items2).Sublist (pids items) := by
  induction items generalizing items2 with
  | nil => simp [setQtyItems] at h
  | cons it rest ih =>
    by_cases hb : it.productId = pid
    · simp only [setQtyItems, hb] at h
      rw [if_pos (by simp)] at h
      by_cases hq : q = 0
      · rw [if_pos (by simp [hq])] at h
        cases h
        exact (List.sublist_cons_self _ _)
      · rw [if_neg (by simp [hq])] at h
        cases h
        simp only [pids_cons, hb]
        exact List.Sublist.refl _
    · simp only [setQtyItems] at h
      rw [if_neg (by simp [hb])] at h
      rcases Option.map_eq_some'.mp h with ⟨r, hr, rfl⟩
      simp only [pids_cons]
      exact (ih hr).cons₂ _

theorem findOrder_cons (o : Order) (rest : List Order) (uid : Nat) (oid : String) :
    findOrder (o :: rest) uid oid
      = if (o.id == oid && o.userId == uid) = true then some o
        else findOrder rest uid oid := by
  by_cases hb : (o.id == oid && o.userId == uid) = true
  · simp only [findOrder]
    rw [List.find?_cons_of_pos rest hb, if_pos hb]
  · simp only [findOrder]
    rw [List.find?_cons_of_neg rest hb, if_neg hb]

theorem cancelFirst_error_state {orders : List Order} {uid : Nat} {oid : String}
    {reason : Option String} {now : Nat} {e : ApiError}
    (h : (cancelFirst orders uid oid reason now).1 = .error e) :
    (cancelFirst orders uid oid reason now).2 = orders := by
  induction orders with
  | nil => simp [cancelFirst]
  | cons o rest ih =>
    by_cases hb : (o.id == oid && o.userId == uid) = true
    · by_cases hc : (lowerStr o.status == "delivered" || lowerStr o.status == "cancelled") = true
      · simp [cancelFirst, hb, hc]
      · simp only [cancelFirst, if_pos hb, if_neg hc] at h
        exact absurd h (by simp)
    · simp only [cancelFirst, if_neg hb] at h ⊢
      rw [ih h]

theorem cancelFirst_not_found {orders : List Order} {uid : Nat} {oid : String}
    (reason : Option String) (now : Nat)
    (h : findOrder orders uid oid = none) :
    cancelFirst orders uid oid reason now = (.error (.notFound "Order not found"), orders) := by
  induction orders with
  | nil => simp [cancelFirst]
  | cons o rest ih =>
    rw [findOrder_cons] at h
    by_cases hb : (o.id == oid && o.userId == uid) = true
    · rw [if_pos hb] at h
      exact absurd h (by simp)
    · rw [if_neg hb] at h
      simp only [cancelFirst, if_neg hb]
      rw [ih h]

theorem cancelFirst_found_conflict {orders : List Order} {uid : Nat} {oid : String}
    {o : Order} (reason : Option String) (now : Nat)
    (h : findOrder orders uid oid = some o)
    (hc : (lowerStr o.status == "delivered" || lowerStr o.status == "cancelled") = true) :
    cancelFirst orders uid oid reason now = (.error (.conflict o.status), orders) := by
  induction orders with
  | nil => simp [findOrder] at h
  | cons a rest ih =>
    rw [findOrder_cons] at h
    by_cases hb : (a.id == oid && a.userId == uid) = true
    · rw [if_pos hb] at h
      injection h with h
      subst h
      simp [cancelFirst, hb, hc]
    · rw [if_neg hb] at h
      simp only [cancelFirst, if_neg hb]
      rw [ih h]

theorem cancelFirst_found_ok {orders : List Order} {uid : Nat} {oid : String}
    {o : Order} (reason : Option String) (now : Nat)
    (h : findOrder orders uid oid = some o)
    (hc : (lowerStr o.status == "delivered" || lowerStr o.status == "cancelled") = false) :
    (cancelFirst orders uid oid reason now).1 = .ok (cancelledVersion o reason now)
    ∧ cancelledVersion o reason now ∈ (cancelFirst orders uid oid reason now).2 := by
  induction orders with
  | nil => simp [findOrder] at h
  | cons a rest ih =>
    rw [findOrder_cons] at h
    by_cases hb : (a.id == oid && a.userId == uid) = true
    · rw [if_pos hb] at h
      injection h with h
      subst h
      simp [cancelFirst, hb, hc]
    · rw [if_neg hb] at h
      rcases ih h with ⟨h1, h2⟩
      simp only [cancelFirst, if_neg hb]
      exact ⟨h1, List.mem_cons_of_mem _ h2⟩

theorem cancelFirst_ok_inv {orders : List Order} {uid : Nat} {oid : String}
    {reason : Option String} {now : Nat} {o2 : Order}
    (h : (cancelFirst orders uid oid reason now).1 = .ok o2) :
    ∃ o, o ∈ orders ∧ o.id = oid ∧ o.userId = uid
      ∧ o2 = cancelledVersion o reason now := by
  induction orders with
  | nil => simp [cancelFirst] at h
  | cons a rest ih =>
    by_cases hb : (a.id == oid && a.userId == uid) = true
    · by_cases hc : (lowerStr a.status == "delivered" || lowerStr a.status == "cancelled") = true
      · simp [cancelFirst, hb, hc] at h
      · simp only [cancelFirst, if_pos hb, if_neg hc] at h
        injection h with h
        have hb2 : a.id = oid ∧ a.userId = uid := by simpa using hb
        exact ⟨a, List.mem_cons_self _ _, hb2.1, hb2.2, h.symm⟩
    · simp only [cancelFirst, if_neg hb] at h
      rcases ih h with ⟨o3, hm, h1, h2, h3⟩
      exact ⟨o3, List.mem_cons_of_mem _ hm, h1, h2, h3⟩

/-- Claim C1: evaluation of the code at the failing input.  A cart of user 1
contains productId P; updateItemQuantity(P, 0) is claimed to succeed and
delete the line, but the guard `!quantity || quantity < 0` treats 0 as
missing and rejects it with the ValidationError response, leaving the line
in place; the removal branch `quantity === 0` further down is unreachable. -/
theorem updateItemQuantity_zero_is_rejected :
    updateItemQuantity [cartC1] 1 "P" (some 0) 20
      = (.error (.validation "Valid quantity is required"), [cartC1]) := rfl

/-- Claim C2: cancelOrder fails with NotFoundError when no order with that id
is owned by the requesting user; it fails with ConflictError (sent with HTTP
status 400 yet a kind distinct from ValidationError) exactly when the current
status is delivered or cancelled; from confirmed, processing, or shipped it
succeeds, setting status = cancelled, a non-null cancelledAt, and
cancellationReason equal to the supplied reason or the fixed default string,
and the updated order is persisted in the store. -/
theorem cancelOrder_spec (orders : List Order) (uid : Nat) (oid : String)
    (reason : Option String) (now : Nat) :
    (findOrder orders uid oid = none →
      cancelOrder orders uid oid reason now
        = (.error (.notFound "Order not found"), orders))
    ∧ (∀ o, findOrder orders uid oid = some o →
        ((o.status = "delivered" ∨ o.status = "cancelled") →
          cancelOrder orders uid oid reason now
            = (.error (.conflict o.status), orders)
          ∧ httpStatus (.conflict o.status) = 400
          ∧ ∀ m, ApiError.conflict o.status ≠ ApiError.validation m)
        ∧ ((o.status = "confirmed" ∨ o.status = "processing" ∨ o.status = "shipped") →
          (cancelOrder orders uid oid reason now).1
            = .ok (cancelledVersion o reason now)
          ∧ cancelledVersion o reason now ∈ (cancelOrder orders uid oid reason now).2
          ∧ (cancelledVersion o reason now).status = "cancelled"
          ∧ (cancelledVersion o reason now).cancelledAt = some now
          ∧ (cancelledVersion o reason now).cancellationReason
              = some (cancelReason reason))) := by
  constructor
  · exact fun h => cancelFirst_not_found reason now h
  · intro o ho
    constructor
    · intro hs
      have hc : (lowerStr o.status == "delivered" || lowerStr o.status == "cancelled")
          = true := by
        rcases hs with hs | hs <;> rw [hs] <;> rfl
      refine ⟨cancelFirst_found_conflict reason now ho hc, rfl, ?_⟩
      intro m hm
      cases hm
    · intro hs
      have hc : (lowerStr o.status == "delivered" || lowerStr o.status == "cancelled")
          = false := by
        rcases hs with hs | hs | hs <;> rw [hs] <;> rfl
      rcases cancelFirst_found_ok reason now ho hc with ⟨h1, h2⟩
      exact ⟨h1, h2, rfl, rfl, rfl⟩

/-- Claim C2, witness: a delivered order is refused with the conflict
response, a confirmed order is cancelled. -/
theorem cancelOrder_spec_witness :
    cancelOrder [ordC2a] 1 "FMD" none 99 = (.error (.conflict "delivered"), [ordC2a])
    ∧ (cancelOrder [ordC2b] 1 "FMC" none 99).1 = .ok (cancelledVersion ordC2b none 99) :=
  ⟨(((cancelOrder_spec [ordC2a] 1 "FMD" none 99).2 ordC2a rfl).1 (Or.inl rfl)).1,
   (((cancelOrder_spec [ordC2b] 1 "FMC" none 99).2 ordC2b rfl).2 (Or.inl rfl)).1⟩

/-- Claim C8, counterexample: cancelling a confirmed order also introduces an
updatedAt field, which is outside the set {status, cancelledAt,
cancellationReason} the claim allows to change. -/
theorem cancelOrder_sets_updatedAt :
    (cancelOrder [ordC8x] 4 "FM9" none 77).1 = .ok (cancelledVersion ordC8x none 77)
    ∧ ordC8x.updatedAt = none
    ∧ (cancelledVersion ordC8x none 77).updatedAt = some 77 :=
  ⟨rfl, rfl, rfl⟩

/-- Claim C8 (amended): on every successful cancelOrder the changed Order
fields are exactly status, cancelledAt, cancellationReason, and updatedAt
(which the handler also stamps); id, userId, items, totalAmount,
deliveryAddress, paymentMethod, notes, orderDate, estimatedDelivery, and
createdAt are unchanged. -/
theorem cancelOrder_frame (orders : List Order) (uid : Nat) (oid : String)
    (reason : Option String) (now : Nat) (o2 : Order)
    (h : (cancelOrder orders uid oid reason now).1 = .ok o2) :
    ∃ o, o ∈ orders ∧ o2 = cancelledVersion o reason now
      ∧ o2.id = o.id ∧ o2.userId = o.userId ∧ o2.items = o.items
      ∧ o2.totalAmount = o.totalAmount ∧ o2.deliveryAddress = o.deliveryAddress
      ∧ o2.paymentMethod = o.paymentMethod ∧ o2.notes = o.notes
      ∧ o2.orderDate = o.orderDate ∧ o2.estimatedDelivery = o.estimatedDelivery
      ∧ o2.createdAt = o.createdAt
      ∧ o2.status = "cancelled" ∧ o2.cancelledAt = some now
      ∧ o2.cancellationReason = some (cancelReason reason)
      ∧ o2.updatedAt = some now := by
  rcases cancelFirst_ok_inv h with ⟨o, hm, h1, h2, h3⟩
  subst h3
  exact ⟨o, hm, rfl, rfl, rfl, rfl, rfl, rfl, rfl, rfl, rfl, rfl, rfl, rfl, rfl, rfl, rfl⟩

/-- Claim C8, witness: the frame theorem applied to a concrete processing
order. -/
theorem cancelOrder_frame_witness :
    (cancelOrder [ordC8w] 3 "FM8" none 99).1 = .ok (cancelledVersion ordC8w none 99)
    ∧ ∃ o, o ∈ [ordC8w] ∧ cancelledVersion ordC8w none 99 = cancelledVersion o none 99 := by
  refine ⟨rfl, ?_⟩
  rcases cancelOrder_frame [ordC8w] 3 "FM8" none 99 (cancelledVersion ordC8w none 99) rfl
    with ⟨o, hm, he, _⟩
  exact ⟨o, hm, he⟩

/-- Claim C9, counterexample: for a user with no cart record, getCart
succeeds and returns zero items, but no Cart record is created: the store
coming out of the call is unchanged and still holds no record for the user. -/
theorem getCart_creates_no_record :
    (getCart [] 7).1.items = [] ∧ (getCart [] 7).2 = []
      ∧ findCart ((getCart [] 7).2) 7 = none :=
  ⟨rfl, rfl, rfl⟩

/-- Claim C9 (amended): getCart never fails for a user without a cart
record: it answers with an empty item list and zero totals, but it does not
persist a new Cart record - the store is returned unchanged. -/
theorem getCart_missing_cart (carts : List Cart) (uid : Nat)
    (h : findCart carts uid = none) :
    getCart carts uid = (⟨[], 0, 0⟩, carts) := by
  simp [getCart, h, viewOf, totalItems, totalPrice]

/-- Claim C9, witness: the empty store. -/
theorem getCart_missing_cart_witness :
    findCart ([] : List Cart) 7 = none ∧ getCart [] 7 = (⟨[], 0, 0⟩, []) :=
  ⟨rfl, getCart_missing_cart [] 7 rfl⟩

/-- Claim C10: every cart or order operation that answers with a domain
error (validation, not-found, or conflict) returns the persisted carts and
orders exactly as they were: every check happens before any write. -/
theorem ops_error_no_write :
    (∀ carts uid, (getCart carts uid).2 = carts)
    ∧ (∀ carts uid req now e,
        (addItem carts uid req now).1 = .error e →
          (addItem carts uid req now).2 = carts)
    ∧ (∀ carts uid pid q now e,
        (updateItemQuantity carts uid pid q now).1 = .error e →
          (updateItemQuantity carts uid pid q now).2 = carts)
    ∧ (∀ carts uid pid e,
        (removeItem carts uid pid).1 = .error e →
          (removeItem carts uid pid).2 = carts)
    ∧ (∀ carts uid now e,
        (clearCart carts uid now).1 = .error e →
          (clearCart carts uid now).2 = carts)
    ∧ (∀ carts orders uid req now oid w e,
        (createOrder carts orders uid req now oid w).1 = .error e →
          (createOrder carts orders uid req now oid w).2 = (carts, orders))
    ∧ (∀ orders uid oid reason now e,
        (cancelOrder orders uid oid reason now).1 = .error e →
          (cancelOrder orders uid oid reason now).2 = orders) := by
  refine ⟨fun carts uid => rfl, ?_, ?_, ?_, ?_, ?_, ?_⟩
  · intro carts uid req now e h
    simp only [addItem] at h ⊢
    split_ifs at h ⊢ <;> rfl
  · intro carts uid pid q now e h
    cases q with
    | none => rfl
    | some v =>
      simp only [updateItemQuantity] at h ⊢
      split_ifs at h ⊢
      · rfl
      · cases hf : findCart carts uid with
        | none => simp only [hf]
        | some cart =>
          simp only [hf] at h ⊢
          cases hs : setQtyItems cart.items pid v now with
          | none => simp only [hs]
          | some items2 =>
            simp only [hs] at h
            exact absurd h (by simp)
  · intro carts uid pid e h
    simp only [removeItem] at h ⊢
    cases hf : findCart carts uid with
    | none => simp only [hf]
    | some cart =>
      simp only [hf] at h ⊢
      split_ifs at h ⊢
      rfl
  · intro carts uid now e h
    simp only [clearCart] at h ⊢
    cases hf : findCart carts uid with
    | none => simp only [hf]
    | some cart =>
      simp only [hf] at h
      exact absurd h (by simp)
  · intro carts orders uid req now oid w e h
    simp only [createOrder] at h ⊢
    cases hi : req.items with
    | none => simp only [hi]
    | some items =>
      simp only [hi] at h ⊢
      split_ifs at h ⊢ <;> rfl
  · intro orders uid oid reason now e h
    exact cancelFirst_error_state h

/-- Claim C10, witness: a rejected quantity update leaves the empty store
unchanged. -/
theorem ops_error_no_write_witness :
    (updateItemQuantity [] 1 "P" none 0).1
      = .error (.validation "Valid quantity is required")
    ∧ (updateItemQuantity [] 1 "P" none 0).2 = [] :=
  ⟨rfl, ops_error_no_write.2.2.1 [] 1 "P" none 0
    (.validation "Valid quantity is required") rfl⟩

theorem addItem_storeOk (carts : List Cart) (uid : Nat) (req : AddItemReq)
    (now : Nat) (h : StoreOk carts) : StoreOk (addItem carts uid req now).2 := by
  simp only [addItem]
  split_ifs with h1 h2 h3
  · exact h
  · exact h
  · rcases Option.isSome_iff_exists.mp h3 with ⟨c, hc⟩
    have hget : (findCart carts uid).getD ⟨uid, [], none⟩ = c := by rw [hc]; rfl
    rw [hget]
    refine storeOk_replaceCart h ?_
    exact nodup_pids_addToItems rfl (h c (mem_of_findCart hc))
  · have hn : findCart carts uid = none := by
      cases hfc : findCart carts uid
      · rfl
      · rw [hfc] at h3; simp at h3
    intro c hcmem
    rcases List.mem_append.mp hcmem with hcm | hcm
    · exact h c hcm
    · simp only [List.mem_singleton] at hcm
      subst hcm
      rw [hn]
      simp [CartOk, addToItems]

theorem updateItemQuantity_storeOk (carts : List Cart) (uid : Nat) (pid : String)
    (q : Option Int) (now : Nat) (h : StoreOk carts) :
    StoreOk (updateItemQuantity carts uid pid q now).2 := by
  cases q with
  | none => exact h
  | some v =>
    simp only [updateItemQuantity]
    split_ifs with h1
    · exact h
    · cases hf : findCart carts uid with
      | none => simp only [hf]; exact h
      | some cart =>
        simp only [hf]
        cases hs : setQtyItems cart.items pid v now with
        | none => simp only [hs]; exact h
        | some items2 =>
          simp only [hs]
          refine storeOk_replaceCart h ?_
          exact List.Nodup.sublist (pids_setQtyItems hs) (h cart (mem_of_findCart hf))

theorem removeItem_storeOk (carts : List Cart) (uid : Nat) (pid : String)
    (h : StoreOk carts) : StoreOk (removeItem carts uid pid).2 := by
  simp only [removeItem]
  cases hf : findCart carts uid with
  | none => simp only [hf]; exact h
  | some cart =>
    simp only [hf]
    split_ifs with h1
    · exact h
    · refine storeOk_replaceCart h ?_
      exact List.Nodup.sublist (List.Sublist.map _ (List.filter_sublist _))
        (h cart (mem_of_findCart hf))

theorem clearCart_storeOk (carts : List Cart) (uid : Nat) (now : Nat)
    (h : StoreOk carts) : StoreOk (clearCart carts uid now).2 := by
  simp only [clearCart]
  cases hf : findCart carts uid with
  | none => simp only [hf]; exact h
  | some cart =>
    simp only [hf]
    refine storeOk_replaceCart h ?_
    exact List.nodup_nil

/-- Claim C4: all five cart operations preserve the invariant that within
one cart each productId occurs on at most one line, and adding an already
present product increments the existing line instead of appending a second
row: add(P,2) then add(P,3) leaves a single line with quantity 5. -/
theorem cart_unique_productId :
    (∀ carts uid, StoreOk carts → StoreOk (getCart carts uid).2)
    ∧ (∀ carts uid req now, StoreOk carts → StoreOk (addItem carts uid req now).2)
    ∧ (∀ carts uid pid q now, StoreOk carts →
        StoreOk (updateItemQuantity carts uid pid q now).2)
    ∧ (∀ carts uid pid, StoreOk carts → StoreOk (removeItem carts uid pid).2)
    ∧ (∀ carts uid now, StoreOk carts → StoreOk (clearCart carts uid now).2)
    ∧ (addItem (addItem [] 1 reqP2 10).2 1 reqP3 20).2
        = [⟨1, [⟨"P", "apple", 2, none, 5, 10, none⟩], none⟩] := by
  refine ⟨fun carts uid h => h,
    fun carts uid req now h => addItem_storeOk carts uid req now h,
    fun carts uid pid q now h => updateItemQuantity_storeOk carts uid pid q now h,
    fun carts uid pid h => removeItem_storeOk carts uid pid h,
    fun carts uid now h => clearCart_storeOk carts uid now h,
    rfl⟩

/-- Claim C4, witness: the invariant holds after adding to the empty store. -/
theorem cart_unique_productId_witness :
    StoreOk ([] : List Cart) ∧ StoreOk (addItem [] 1 reqP2 10).2 :=
  ⟨fun c hc => absurd hc (List.not_mem_nil c),
   cart_unique_productId.2.1 [] 1 reqP2 10 (fun c hc => absurd hc (List.not_mem_nil c))⟩

/-- Claim C5: on every successful createOrder the cart of that user is
emptied by the checkout coupling, so a following getCart answers zero items;
and when the ignored cart-clear write fails (cartWriteOk = false) order
creation still returns the same successful response and persists the same
orders, only the carts store keeps its old content. -/
theorem createOrder_clears_cart (carts : List Cart) (orders : List Order)
    (uid : Nat) (req : CreateOrderReq) (now : Nat) (oid : String)
    (ord : Order) (carts2 : List Cart) (orders2 : List Order)
    (h : createOrder carts orders uid req now oid true = (.ok ord, carts2, orders2)) :
    (getCart carts2 uid).1.items = []
    ∧ createOrder carts orders uid req now oid false = (.ok ord, carts, orders2) := by
  cases hi : req.items with
  | none => simp [createOrder, hi] at h
  | some items =>
    simp only [createOrder, hi] at h ⊢
    by_cases h1 : (items.length == 0) = true
    · rw [if_pos h1] at h
      exact absurd h (by simp)
    · rw [if_neg h1] at h ⊢
      by_cases h2 : (!truthyStr req.deliveryAddress || !truthyStr req.paymentMethod) = true
      · rw [if_pos h2] at h
        exact absurd h (by simp)
      · rw [if_neg h2] at h ⊢
        simp only [Prod.mk.injEq, Except.ok.injEq] at h
        obtain ⟨hord, hcarts, horders⟩ := h
        subst hord
        subst hcarts
        subst horders
        refine ⟨?_, ?_⟩
        · cases hf : findCart carts uid with
          | none => simp [getCart, hf, viewOf]
          | some cart =>
            have hu : cart.userId = uid := findCart_userId hf
            have hrep := @findCart_replaceCart carts uid cart
              { cart with items := [], clearedAt := some now } hf hu
            simp [getCart, hf, hrep, viewOf]
        · cases hf : findCart carts uid with
          | none => simp [hf]
          | some cart => simp [hf]

/-- Claim C5, witness: checkout at a concrete store; the cart of user 1 is
emptied, the response is the created order. -/
theorem createOrder_clears_cart_witness :
    createOrder [cartC5] [] 1 reqC5 7 "FM1" true
      = (.ok ordC5, [⟨1, [], some 7⟩], [ordC5])
    ∧ (getCart [(⟨1, [], some 7⟩ : Cart)] 1).1.items = [] :=
  ⟨rfl, (createOrder_clears_cart [cartC5] [] 1 reqC5 7 "FM1" ordC5
      [⟨1, [], some 7⟩] [ordC5] rfl).1⟩

/-- Claim C6: every successful createOrder computes totalAmount as the sum
over the submitted items of unitPrice times quantity, rounded to 2 decimal
places half-up, at creation time; the worked example with items
[(price 2.50, qty 2), (price 1.00, qty 3)] yields totalAmount 8.00. -/
theorem createOrder_totalAmount :
    (∀ carts orders uid req now oid w its ord carts2 orders2,
        req.items = some its →
        createOrder carts orders uid req now oid w = (.ok ord, carts2, orders2) →
        ord.totalAmount = round2 (orderTotal its))
    ∧ (∃ ord carts2 orders2,
        createOrder [] [] 7 reqEx 0 "FMEX" true = (.ok ord, carts2, orders2)
        ∧ ord.totalAmount = 8) := by
  constructor
  · intro carts orders uid req now oid w its ord carts2 orders2 hi h
    simp only [createOrder, hi] at h
    by_cases h1 : (its.length == 0) = true
    · rw [if_pos h1] at h
      exact absurd h (by simp)
    · rw [if_neg h1] at h
      by_cases h2 : (!truthyStr req.deliveryAddress || !truthyStr req.paymentMethod) = true
      · rw [if_pos h2] at h
        exact absurd h (by simp)
      · rw [if_neg h2] at h
        simp only [Prod.mk.injEq, Except.ok.injEq] at h
        obtain ⟨hord, -, -⟩ := h
        rw [← hord]
  · refine ⟨ordEx, [], [ordEx], rfl, ?_⟩
    show round2 (orderTotal [⟨"a", "x", 5 / 2, 2, none⟩, ⟨"b", "y", 1, 3, none⟩]) = 8
    rw [round2, orderTotal]
    norm_num

/-- Claim C6, witness: the general totalAmount formula applied to the
worked example request. -/
theorem createOrder_totalAmount_witness :
    createOrder [] [] 7 reqEx 0 "FMEX" true = (.ok ordEx, [], [ordEx])
    ∧ ordEx.totalAmount
        = round2 (orderTotal [⟨"a", "x", 5 / 2, 2, none⟩, ⟨"b", "y", 1, 3, none⟩]) :=
  ⟨rfl, createOrder_totalAmount.1 [] [] 7 reqEx 0 "FMEX" true
    [⟨"a", "x", 5 / 2, 2, none⟩, ⟨"b", "y", 1, 3, none⟩] ordEx [] [ordEx] rfl rfl⟩

/-- Claim C3, counterexample: a createOrder request whose paymentMethod
"bitcoin" is outside the enumerated set card/cash/paypal/other is accepted
and the order is persisted, refuting the claim that such inputs are
rejected. -/
theorem createOrder_accepts_any_paymentMethod :
    reqBtc.paymentMethod = some "bitcoin"
    ∧ "bitcoin" ∉ (["card", "cash", "paypal", "other"] : List String)
    ∧ createOrder [] [] 1 reqBtc 0 "FM1" true = (.ok ordBtc, [], [ordBtc]) := by
  refine ⟨rfl, ?_, rfl⟩
  decide

/-- Claim C3 (amended): createOrder fails with ValidationError exactly when
items is absent or empty, or deliveryAddress or paymentMethod is absent or
the empty string; paymentMethod is never compared against the enumerated
set, so every non-empty string is accepted. -/
theorem createOrder_validation (carts : List Cart) (orders : List Order)
    (uid : Nat) (req : CreateOrderReq) (now : Nat) (oid : String) (w : Bool) :
    (∃ v, (createOrder carts orders uid req now oid w).1 = Except.ok v) ↔
      ((∃ its, req.items = some its ∧ its ≠ [])
        ∧ truthyStr req.deliveryAddress = true
        ∧ truthyStr req.paymentMethod = true) := by
  cases hi : req.items with
  | none => simp [createOrder, hi]
  | some items =>
    simp only [createOrder, hi]
    by_cases h1 : (items.length == 0) = true
    · rw [if_pos h1]
      have hlen : items = [] := by simpa using h1
      subst hlen
      simp
    · rw [if_neg h1]
      by_cases h2 : (!truthyStr req.deliveryAddress || !truthyStr req.paymentMethod) = true
      · rw [if_pos h2]
        simp only [Bool.or_eq_true, Bool.not_eq_true'] at h2
        constructor
        · rintro ⟨v, hv⟩
          exact absurd hv (by simp)
        · rintro ⟨-, hda, hpm⟩
          rcases h2 with h | h
          · rw [hda] at h; cases h
          · rw [hpm] at h; cases h
      · rw [if_neg h2]
        have hne : items ≠ [] := fun he => h1 (by simp [he])
        have hda : truthyStr req.deliveryAddress = true := by
          rcases Bool.eq_false_or_eq_true (truthyStr req.deliveryAddress) with hx | hx
          · exact hx
          · exact absurd (by simp [hx]) h2
        have hpm : truthyStr req.paymentMethod = true := by
          rcases Bool.eq_false_or_eq_true (truthyStr req.paymentMethod) with hx | hx
          · exact hx
          · exact absurd (by simp [hx]) h2
        constructor
        · intro _
          exact ⟨⟨items, rfl, hne⟩, hda, hpm⟩
        · intro _
          exact ⟨_, rfl⟩

/-- Claim C7, counterexample: an addItem request whose unitPrice is present
and equal to 0, with quantity 1, is rejected with the ValidationError for
missing fields, because the JS truthiness test !price treats 0 as absent;
the claim says such a request succeeds. -/
theorem addItem_rejects_zero_price :
    reqZeroPrice.price = some 0
    ∧ 1 ≤ reqZeroPrice.quantity.getD 1
    ∧ addItem [] 1 reqZeroPrice 0
        = (.error (.validation "Product ID, name, and price are required"), []) :=
  ⟨rfl, by decide, rfl⟩

/-- Claim C7 (amended): addItem fails with ValidationError exactly when
productId, name, or unitPrice is absent or falsy - a unitPrice of exactly 0
counts as absent under the JS truthiness test - or quantity < 1; a negative
unitPrice with quantity at least 1 is still accepted. -/
theorem addItem_validation (carts : List Cart) (uid : Nat) (req : AddItemReq)
    (now : Nat) :
    ((∃ v, (addItem carts uid req now).1 = Except.ok v) ↔
      (truthyStr req.productId = true ∧ truthyStr req.name = true
        ∧ truthyRat req.price = true ∧ 1 ≤ req.quantity.getD 1))
    ∧ (∃ v, (addItem [] 1 reqNegPrice 0).1 = Except.ok v) := by
  constructor
  · simp only [addItem]
    by_cases h1 : (!truthyStr req.productId || !truthyStr req.name
        || !truthyRat req.price) = true
    · rw [if_pos h1]
      simp only [Bool.or_eq_true, Bool.not_eq_true'] at h1
      constructor
      · rintro ⟨v, hv⟩
        exact absurd hv (by simp)
      · rintro ⟨hpid, hname, hprice, -⟩
        rcases h1 with (h | h) | h
        · rw [hpid] at h; cases h
        · rw [hname] at h; cases h
        · rw [hprice] at h; cases h
    · rw [if_neg h1]
      by_cases h2 : req.quantity.getD 1 < 1
      · rw [if_pos h2]
        constructor
        · rintro ⟨v, hv⟩
          exact absurd hv (by simp)
        · rintro ⟨-, -, -, hq⟩
          omega
      · rw [if_neg h2]
        have hpid : truthyStr req.productId = true := by
          rcases Bool.eq_false_or_eq_true (truthyStr req.productId) with hx | hx
          · exact hx
          · exact absurd (by simp [hx]) h1
        have hname : truthyStr req.name = true := by
          rcases Bool.eq_false_or_eq_true (truthyStr req.name) with hx | hx
          · exact hx
          · exact absurd (by simp [hx]) h1
        have hprice : truthyRat req.price = true := by
          rcases Bool.eq_false_or_eq_true (truthyRat req.price) with hx | hx
          · exact hx
          · exact absurd (by simp [hx]) h1
        constructor
        · intro _
          exact ⟨hpid, hname, hprice, by omega⟩
        · intro _
          exact ⟨_, rfl⟩
  · exact ⟨_, rfl⟩

end FMart
